import Mathlib

/-!
Shallow embedding of the task-management API backend
(`Backend/app/models/task.py`, `Backend/app/models/user.py`,
`Backend/app/routes/tasks.py`, `Backend/app/routes/auth.py`).

Documents are modelled at the document-store level: every field that a
Mongo `$set` could set to null is an `Option`.  Pydantic request bodies
with `exclude_unset=True` semantics distinguish an absent field from an
explicitly-null field, so each updatable body field is
`Option (Option α)`: the outer layer is presence in the request body,
the inner layer is JSON null versus a value.  `datetime` values are
modelled as `Nat` instants; each handler receives the current time as a
parameter.  HTTP error responses become constructors of `ApiError`.
-/

namespace TaskApi

/-- Task status enumeration (`TaskStatus` in `models/task.py`). -/
inductive TaskStatus where
  | todo
  | in_progress
  | completed
  | cancelled
deriving DecidableEq

/-- Task priority enumeration (`TaskPriority` in `models/task.py`). -/
inductive TaskPriority where
  | low
  | medium
  | high
  | urgent
deriving DecidableEq

/-- A persisted task document (`Task` in `models/task.py`).  Fields that
a partial update could `$set` to null are `Option`s; at creation they
are populated with `some` values (status defaults to `todo`). -/
structure Task where
  id : String
  title : Option String
  description : Option String
  status : Option TaskStatus
  priority : Option TaskPriority
  due_date : Option Nat
  created_by : String
  assigned_to : Option (List String)
  tags : Option (List String)
  created_at : Nat
  updated_at : Nat
  completed_at : Option Nat
deriving DecidableEq

/-- Request schema for creating a task (`TaskCreate`). -/
structure TaskCreate where
  title : String
  description : Option String := none
  priority : TaskPriority := TaskPriority.medium
  due_date : Option Nat := none
  assigned_to : Option (List String) := none
  tags : Option (List String) := none
deriving DecidableEq

/-- Request schema for a PUT partial update (`TaskUpdate`).  Every field
is `Option (Option _)`: outer `none` = absent from the request body
(excluded by `model_dump(exclude_unset=True)`), `some none` = explicitly
null in the body, `some (some v)` = a value. -/
structure TaskUpdate where
  title : Option (Option String) := none
  description : Option (Option String) := none
  status : Option (Option TaskStatus) := none
  priority : Option (Option TaskPriority) := none
  due_date : Option (Option Nat) := none
  assigned_to : Option (Option (List String)) := none
  tags : Option (Option (List String)) := none
deriving DecidableEq

/-- `model_dump(exclude_unset=True)` yields an empty dict iff every
field of the body is unset (`if update_data:` at `tasks.py:180`). -/
def TaskUpdate.isEmptyDump (b : TaskUpdate) : Bool :=
  b.title.isNone && b.description.isNone && b.status.isNone &&
  b.priority.isNone && b.due_date.isNone && b.assigned_to.isNone && b.tags.isNone

/-- Error responses raised by the route handlers, identified by HTTP
status plus detail message. -/
inductive ApiError where
  /-- 404 "Task not found" -/
  | notFound
  /-- 403 access denied -/
  | forbidden
  /-- 401 "Incorrect username or password" -/
  | unauthorized
  /-- 400 "Inactive user" -/
  | inactiveUser
  /-- 400 "Username already registered" -/
  | usernameTaken
  /-- 400 "Email already registered" -/
  | emailTaken
deriving DecidableEq

/-- `create_task` handler body (`tasks.py:18-28`): build the document
from the request and the authenticated caller.  `id` is the
store-assigned ObjectId, `now` the current time. -/
def create_task (data : TaskCreate) (uid : String) (id : String) (now : Nat) : Task :=
  { id := id
    title := some data.title
    description := data.description
    status := some TaskStatus.todo
    priority := some data.priority
    due_date := data.due_date
    created_by := uid
    assigned_to := some (data.assigned_to.getD [])
    tags := some (data.tags.getD [])
    created_at := now
    updated_at := now
    completed_at := none }

/-- The `completed_at` rule of the PUT handler (`tasks.py:183-187`).
`flat` is the pydantic attribute `task_data.status`, which is `None`
both when the field is unset and when it is explicitly null (the
Python code tests it for truthiness). -/
def putCompletedAt (cur : Option TaskStatus) (flat : Option TaskStatus)
    (old : Option Nat) (now : Nat) : Option Nat :=
  match flat with
  | some TaskStatus.completed =>
      if cur ≠ some TaskStatus.completed then some now else old
  | some _ => none
  | none => old

/-- `update_task` PUT handler core (`tasks.py:178-190`): the `$set` of
`model_dump(exclude_unset=True)` plus `updated_at` plus the
`completed_at` rule; an empty dump performs no update at all. -/
def update_task (task : Task) (body : TaskUpdate) (now : Nat) : Task :=
  if body.isEmptyDump then task
  else
    { task with
      title := body.title.getD task.title
      description := body.description.getD task.description
      status := body.status.getD task.status
      priority := body.priority.getD task.priority
      due_date := body.due_date.getD task.due_date
      assigned_to := body.assigned_to.getD task.assigned_to
      tags := body.tags.getD task.tags
      updated_at := now
      completed_at :=
        putCompletedAt task.status (body.status.bind (fun x => x)) task.completed_at now }

/-- `update_task_status` PATCH handler core (`tasks.py:238-251`):
`TaskStatusUpdate.status` is a required enum value. -/
def update_task_status (task : Task) (s : TaskStatus) (now : Nat) : Task :=
  { task with
    status := some s
    updated_at := now
    completed_at :=
      if s = TaskStatus.completed then
        if task.status ≠ some TaskStatus.completed then some now else task.completed_at
      else none }

/-- A 24-character hex string, the shape `PydanticObjectId` accepts;
any other string makes `PydanticObjectId(task_id)` raise, which the
handlers catch and turn into 404. -/
def isValidObjectId (s : String) : Bool :=
  s.length == 24 && s.toList.all (fun c =>
    c.isDigit || ('a' ≤ c && c ≤ 'f') || ('A' ≤ c && c ≤ 'F'))

/-- `Task.get(PydanticObjectId(task_id))` as seen by the handlers: an
ill-formed id raises (mapped to `none` here, the handlers turn both
that exception and an absent document into 404). -/
def lookupTask (db : List Task) (task_id : String) : Option Task :=
  if isValidObjectId task_id then db.find? (fun t => t.id == task_id) else none

/-- The shared view/edit authorization predicate
(`tasks.py:124-126`, `170-172`, `230-232`): creator or assignee. -/
def canView (t : Task) (uid : String) : Prop :=
  t.created_by = uid ∨ uid ∈ t.assigned_to.getD []

instance (t : Task) (uid : String) : Decidable (canView t uid) := by
  unfold canView; infer_instance

/-- `get_task` handler (`tasks.py:103-145`): 404 on bad/absent id,
403 unless creator or assignee, otherwise the task. -/
def get_task (db : List Task) (task_id : String) (uid : String) : Except ApiError Task :=
  match lookupTask db task_id with
  | none => Except.error ApiError.notFound
  | some task =>
      if task.created_by ≠ uid ∧ uid ∉ task.assigned_to.getD [] then
        Except.error ApiError.forbidden
      else Except.ok task

/-- `update_task` handler (`tasks.py:148-205`) including its existence
and authorization checks; returns the persisted document. -/
def put_task (db : List Task) (task_id : String) (body : TaskUpdate)
    (uid : String) (now : Nat) : Except ApiError Task :=
  match lookupTask db task_id with
  | none => Except.error ApiError.notFound
  | some task =>
      if task.created_by ≠ uid ∧ uid ∉ task.assigned_to.getD [] then
        Except.error ApiError.forbidden
      else Except.ok (update_task task body now)

/-- `update_task_status` handler (`tasks.py:208-266`) including its
existence and authorization checks. -/
def patch_task_status (db : List Task) (task_id : String) (s : TaskStatus)
    (uid : String) (now : Nat) : Except ApiError Task :=
  match lookupTask db task_id with
  | none => Except.error ApiError.notFound
  | some task =>
      if task.created_by ≠ uid ∧ uid ∉ task.assigned_to.getD [] then
        Except.error ApiError.forbidden
      else Except.ok (update_task_status task s now)

/-- `delete_task` handler (`tasks.py:269-297`): only the creator may
delete. -/
def delete_task (db : List Task) (task_id : String) (uid : String) : Except ApiError Unit :=
  match lookupTask db task_id with
  | none => Except.error ApiError.notFound
  | some task =>
      if task.created_by ≠ uid then Except.error ApiError.forbidden
      else Except.ok ()

/-- The Mongo query built by `get_tasks` (`tasks.py:57-80`), as the
predicate it denotes on documents.  Python truthiness: an enum filter
counts as given iff it is `some`, the booleans iff `true`; when none of
the four is given, the `$or` clause restricts to creator-or-assignee.
A null `assigned_to` array matches no `$in` clause. -/
def taskMatches (uid : String) (status_filter : Option TaskStatus)
    (priority_filter : Option TaskPriority)
    (assigned_to_me created_by_me : Bool) (t : Task) : Bool :=
  (match status_filter with
   | some s => t.status == some s
   | none => true) &&
  (match priority_filter with
   | some p => t.priority == some p
   | none => true) &&
  (!assigned_to_me || (t.assigned_to.getD []).contains uid) &&
  (!created_by_me || t.created_by == uid) &&
  (if assigned_to_me || created_by_me || status_filter.isSome || priority_filter.isSome
   then true
   else t.created_by == uid || (t.assigned_to.getD []).contains uid)

/-- Sort relation of `sort([("created_at", DESCENDING)])`. -/
def createdDesc (a b : Task) : Prop := b.created_at ≤ a.created_at

instance : DecidableRel createdDesc := fun a b => Nat.decLe b.created_at a.created_at

instance : IsTotal Task createdDesc := ⟨fun a b => Nat.le_total b.created_at a.created_at⟩

instance : IsTrans Task createdDesc :=
  ⟨fun _ _ _ h1 h2 => Nat.le_trans h2 h1⟩

/-- `get_tasks` handler (`tasks.py:46-100`): filter, sort by
`created_at` descending, then apply `skip` and `limit` (Mongo applies
the sort before the cursor skip/limit regardless of chaining order). -/
def get_tasks (db : List Task) (uid : String) (status_filter : Option TaskStatus)
    (priority_filter : Option TaskPriority) (assigned_to_me created_by_me : Bool)
    (skip limit : Nat) : List Task :=
  ((List.insertionSort createdDesc
      (db.filter (taskMatches uid status_filter priority_filter assigned_to_me created_by_me))).drop
    skip).take limit

/-- A persisted user document (`User` in `models/user.py`). -/
structure UserRec where
  id : String
  username : String
  email : String
  hashed_password : String
  full_name : Option String
  is_active : Bool
deriving DecidableEq

/-- Request schema for registration (`UserCreate`). -/
structure UserCreate where
  username : String
  email : String
  password : String
  full_name : Option String := none
deriving DecidableEq

/-- Modelled from the spec: `app/core/security.py` is not in the
source tree; the spec describes "a password hashing primitive
(one-way, salted)" consumed as a collaborator.  The hash is modelled as
an injective tagging of the plaintext. -/
def get_password_hash (password : String) : String := "hashed$" ++ password

/-- Modelled from the spec: verification succeeds exactly when the
plaintext hashes to the stored hash. -/
def verify_password (plain hashed : String) : Bool := get_password_hash plain == hashed

/-- `User.find_one(User.username == name)`: first document whose
username matches. -/
def findByUsername (users : List UserRec) (name : String) : Option UserRec :=
  users.find? (fun u => u.username == name)

/-- `User.find_one(User.email == email)`. -/
def findByEmail (users : List UserRec) (email : String) : Option UserRec :=
  users.find? (fun u => u.email == email)

/-- `register_user` handler (`auth.py:12-50`): username lookup first,
then email lookup, then insert (`is_active` defaults to true).  On
success returns the new user table. -/
def register_user (users : List UserRec) (data : UserCreate) (newId : String) :
    Except ApiError (List UserRec) :=
  match findByUsername users data.username with
  | some _ => Except.error ApiError.usernameTaken
  | none =>
      match findByEmail users data.email with
      | some _ => Except.error ApiError.emailTaken
      | none =>
          Except.ok (users ++ [{ id := newId
                                 username := data.username
                                 email := data.email
                                 hashed_password := get_password_hash data.password
                                 full_name := data.full_name
                                 is_active := true }])

/-- `login_user` handler (`auth.py:53-89`): 401 when the username is
unknown or the password fails verification, then 400 when the account
is inactive, otherwise the logged-in user (token issuance elided). -/
def login_user (users : List UserRec) (username password : String) :
    Except ApiError UserRec :=
  match findByUsername users username with
  | none => Except.error ApiError.unauthorized
  | some user =>
      if !verify_password password user.hashed_password then
        Except.error ApiError.unauthorized
      else if !user.is_active then Except.error ApiError.inactiveUser
      else Except.ok user

/-- A mutation of a single task through one of the two update
endpoints, at a given current time. -/
inductive TaskOp where
  | put (body : TaskUpdate) (now : Nat)
  | patchStatus (s : TaskStatus) (now : Nat)

/-- Apply one update endpoint to a task document. -/
def applyOp (t : Task) : TaskOp → Task
  | TaskOp.put body now => update_task t body now
  | TaskOp.patchStatus s now => update_task_status t s now

/-- Apply a sequence of update operations left to right. -/
def runOps (t : Task) (ops : List TaskOp) : Task := ops.foldl applyOp t

/-- The completion-timestamp invariant of the spec:
`completed_at` is non-null iff `status == completed`. -/
def completedInv (t : Task) : Prop :=
  t.completed_at ≠ none ↔ t.status = some TaskStatus.completed

instance (t : Task) : Decidable (completedInv t) := by
  unfold completedInv; infer_instance

/-- A PUT body whose `status` field is not the explicit JSON null
(it is either absent or a genuine enum value); PATCH bodies always
satisfy this since their status is a required enum. -/
def goodOp : TaskOp → Prop
  | TaskOp.put body _ => body.status ≠ some none
  | TaskOp.patchStatus _ _ => True

instance (op : TaskOp) : Decidable (goodOp op) := by
  cases op <;> (unfold goodOp; infer_instance)

/-- The default `$or` scope of the list endpoint: caller is creator or
assignee (`tasks.py:77-80`). -/
def involved (uid : String) (t : Task) : Bool :=
  t.created_by == uid || (t.assigned_to.getD []).contains uid

lemma taskMatches_no_filters (uid : String) (t : Task) :
    taskMatches uid none none false false t = involved uid t := by
  simp [taskMatches, involved]

lemma completedInv_create (c : TaskCreate) (uid id0 : String) (now0 : Nat) :
    completedInv (create_task c uid id0 now0) := by
  simp [completedInv, create_task]

lemma completedInv_applyOp (t : Task) (op : TaskOp) (hop : goodOp op)
    (h : completedInv t) : completedInv (applyOp t op) := by
  cases op with
  | put body now =>
      by_cases he : body.isEmptyDump
      · simpa [applyOp, update_task, he] using h
      · cases hbs : body.status with
        | none =>
            simpa [applyOp, update_task, he, completedInv, putCompletedAt, hbs] using h
        | some os =>
            cases os with
            | none => exact absurd hbs hop
            | some s =>
                cases s <;>
                  simp_all [applyOp, update_task, he, completedInv, putCompletedAt, hbs]
                split_ifs with hts <;> simp_all
  | patchStatus s now =>
      cases s <;> simp_all [applyOp, update_task_status, completedInv]
      split_ifs with hts <;> simp_all

lemma completedInv_runOps (t : Task) (ops : List TaskOp)
    (hops : ∀ op ∈ ops, goodOp op) (h : completedInv t) :
    completedInv (runOps t ops) := by
  induction ops generalizing t with
  | nil => simpa [runOps] using h
  | cons op rest ih =>
      have h1 : completedInv (applyOp t op) :=
        completedInv_applyOp t op (hops op (List.mem_cons_self op rest)) h
      have := ih (applyOp t op) (fun o ho => hops o (List.mem_cons_of_mem op ho)) h1
      simpa [runOps, List.foldl_cons] using this

/-- C1 (counterexample): the claimed invariant fails as stated.  Create
a task, PATCH it to `completed`, then PUT a body whose `status` field is
explicitly null: the `$set` writes `status = null` but the `completed_at`
rule at `tasks.py:186` tests the attribute for truthiness and leaves
`completed_at` set, so `completed_at` is non-null while the status is
not `completed`. -/
theorem C1_counterexample :
    ¬ completedInv
        (runOps (create_task { title := "T" } "u1" "aaaaaaaaaaaaaaaaaaaaaaaa" 0)
          [TaskOp.patchStatus TaskStatus.completed 1,
           TaskOp.put { status := some none } 2]) := by
  decide

/-- C1 (amended): under any sequence of PUT and PATCH update operations
in which no PUT body explicitly sets `status` to null, every task
created by `create_task` satisfies the invariant `completed_at` non-null
iff `status == completed`; moreover any transition into `completed`
(from a non-completed status) sets `completed_at` to the current time,
and any transition to an enum status other than `completed` sets it to
null. -/
theorem C1_completed_at_invariant (c : TaskCreate) (uid id0 : String) (now0 : Nat)
    (ops : List TaskOp) (hops : ∀ op ∈ ops, goodOp op) :
    completedInv (runOps (create_task c uid id0 now0) ops) ∧
    (∀ (t : Task) (now : Nat), t.status ≠ some TaskStatus.completed →
      (update_task_status t TaskStatus.completed now).completed_at = some now ∧
      (update_task t { status := some (some TaskStatus.completed) } now).completed_at
        = some now) ∧
    (∀ (t : Task) (s : TaskStatus) (now : Nat), s ≠ TaskStatus.completed →
      (update_task_status t s now).completed_at = none ∧
      (update_task t { status := some (some s) } now).completed_at = none) := by
  refine ⟨completedInv_runOps _ ops hops (completedInv_create c uid id0 now0), ?_, ?_⟩
  · intro t now ht
    constructor
    · simp [update_task_status, ht]
    · simp [update_task, TaskUpdate.isEmptyDump, putCompletedAt, ht]
  · intro t s now hs
    constructor
    · simp [update_task_status, hs]
    · cases s <;> simp_all [update_task, TaskUpdate.isEmptyDump, putCompletedAt]

/-- C1 witness: the amended invariant, evaluated on a concrete task
patched to `completed` and back to `todo`. -/
theorem C1_completed_at_invariant_witness :
    completedInv
      (runOps (create_task { title := "T" } "u1" "aaaaaaaaaaaaaaaaaaaaaaaa" 0)
        [TaskOp.patchStatus TaskStatus.completed 1,
         TaskOp.patchStatus TaskStatus.todo 2]) :=
  (C1_completed_at_invariant { title := "T" } "u1" "aaaaaaaaaaaaaaaaaaaaaaaa" 0
    [TaskOp.patchStatus TaskStatus.completed 1,
     TaskOp.patchStatus TaskStatus.todo 2] (by decide)).1

lemma not_canView_iff (t : Task) (uid : String) :
    ¬ canView t uid ↔ (t.created_by ≠ uid ∧ uid ∉ t.assigned_to.getD []) := by
  simp [canView, not_or]

/-- Sample task for the C2 witness: created by `u2`, assigned to `u3`. -/
def sampleTaskC2 : Task :=
  { id := "bbbbbbbbbbbbbbbbbbbbbbbb"
    title := some "x"
    description := none
    status := some TaskStatus.todo
    priority := some TaskPriority.medium
    due_date := none
    created_by := "u2"
    assigned_to := some ["u3"]
    tags := some []
    created_at := 0
    updated_at := 0
    completed_at := none }

/-- C2: on an existing task, GET/PUT/PATCH succeed exactly for the
creator or an assignee and otherwise return 403, while DELETE succeeds
exactly for the creator and returns 403 for everyone else (including an
assignee who is not the creator). -/
theorem C2_authorization (db : List Task) (id uid : String) (t : Task)
    (body : TaskUpdate) (s : TaskStatus) (now : Nat)
    (hfind : lookupTask db id = some t) :
    (¬ canView t uid →
      get_task db id uid = Except.error ApiError.forbidden ∧
      put_task db id body uid now = Except.error ApiError.forbidden ∧
      patch_task_status db id s uid now = Except.error ApiError.forbidden ∧
      delete_task db id uid = Except.error ApiError.forbidden) ∧
    (canView t uid →
      get_task db id uid = Except.ok t ∧
      put_task db id body uid now = Except.ok (update_task t body now) ∧
      patch_task_status db id s uid now = Except.ok (update_task_status t s now)) ∧
    (uid = t.created_by → delete_task db id uid = Except.ok ()) ∧
    (uid ≠ t.created_by → delete_task db id uid = Except.error ApiError.forbidden) := by
  refine ⟨?_, ?_, ?_, ?_⟩
  · intro hcv
    rw [not_canView_iff] at hcv
    refine ⟨?_, ?_, ?_, ?_⟩ <;>
      simp [get_task, put_task, patch_task_status, delete_task, hfind, hcv.1, hcv.2]
  · intro hcv
    have hc : ¬ (t.created_by ≠ uid ∧ uid ∉ t.assigned_to.getD []) := by
      rw [← not_canView_iff] at *; exact not_not_intro hcv
    refine ⟨?_, ?_, ?_⟩ <;>
      simp [get_task, put_task, patch_task_status, hfind, hc]
  · intro hu
    simp [delete_task, hfind, hu.symm]
  · intro hu
    have hne : t.created_by ≠ uid := fun he => hu he.symm
    simp [delete_task, hfind, hne]

/-- C2 witness: the assignee `u3` may view the sample task but is
refused delete. -/
theorem C2_authorization_witness :
    get_task [sampleTaskC2] "bbbbbbbbbbbbbbbbbbbbbbbb" "u3" = Except.ok sampleTaskC2 ∧
    delete_task [sampleTaskC2] "bbbbbbbbbbbbbbbbbbbbbbbb" "u3" =
      Except.error ApiError.forbidden :=
  ⟨((C2_authorization [sampleTaskC2] "bbbbbbbbbbbbbbbbbbbbbbbb" "u3" sampleTaskC2
      {} TaskStatus.todo 5 rfl).2.1 (by decide)).1,
   (C2_authorization [sampleTaskC2] "bbbbbbbbbbbbbbbbbbbbbbbb" "u3" sampleTaskC2
      {} TaskStatus.todo 5 rfl).2.2.2 (by decide)⟩

/-- C3: for every status value and every task, a PUT whose body contains
exactly `status = s` and a status-only PATCH to `s` run at the same
current time take the same existence/authorization path and persist
identical task records. -/
theorem C3_put_patch_equivalent (db : List Task) (id uid : String) (s : TaskStatus)
    (now : Nat) :
    put_task db id { status := some (some s) } uid now =
      patch_task_status db id s uid now := by
  have hcore : ∀ t : Task,
      update_task t { status := some (some s) } now = update_task_status t s now := by
    intro t
    unfold update_task update_task_status TaskUpdate.isEmptyDump putCompletedAt
    cases s <;> simp
  unfold put_task patch_task_status
  cases lookupTask db id with
  | none => rfl
  | some t => simp [hcore t]

/-- C4: when the task id is not a syntactically valid ObjectId or no
task in the store carries it, GET, PUT, PATCH and DELETE all return 404
"not found" — never 403 — for every caller. -/
theorem C4_missing_task_not_found (db : List Task) (id uid : String)
    (body : TaskUpdate) (s : TaskStatus) (now : Nat)
    (h : isValidObjectId id = false ∨ ∀ t ∈ db, t.id ≠ id) :
    get_task db id uid = Except.error ApiError.notFound ∧
    put_task db id body uid now = Except.error ApiError.notFound ∧
    patch_task_status db id s uid now = Except.error ApiError.notFound ∧
    delete_task db id uid = Except.error ApiError.notFound := by
  have hlook : lookupTask db id = none := by
    cases h with
    | inl hv => simp [lookupTask, hv]
    | inr habs =>
        unfold lookupTask
        split
        · rw [List.find?_eq_none]
          intro t ht
          simpa using habs t ht
        · rfl
  refine ⟨?_, ?_, ?_, ?_⟩ <;>
    simp [get_task, put_task, patch_task_status, delete_task, hlook]

/-- C4 witness: a syntactically invalid id on a store containing the
C2 sample task yields 404 on all four endpoints. -/
theorem C4_missing_task_not_found_witness :
    get_task [sampleTaskC2] "not-an-objectid" "u2" = Except.error ApiError.notFound ∧
    put_task [sampleTaskC2] "not-an-objectid" {} "u2" 5 = Except.error ApiError.notFound ∧
    patch_task_status [sampleTaskC2] "not-an-objectid" TaskStatus.todo "u2" 5 =
      Except.error ApiError.notFound ∧
    delete_task [sampleTaskC2] "not-an-objectid" "u2" = Except.error ApiError.notFound :=
  C4_missing_task_not_found [sampleTaskC2] "not-an-objectid" "u2" {} TaskStatus.todo 5
    (Or.inl (by decide))

/-- Sample task for the C5 witness: created by `u1`. -/
def sampleTaskC5 : Task :=
  { id := "dddddddddddddddddddddddd"
    title := some "mine"
    description := none
    status := some TaskStatus.todo
    priority := some TaskPriority.medium
    due_date := none
    created_by := "u1"
    assigned_to := some []
    tags := some []
    created_at := 3
    updated_at := 3
    completed_at := none }

/-- C5: a list request with none of the four filters returns exactly
the tasks whose creator is the caller or whose assignee set contains
the caller, sorted by `created_at` descending (under the default
`skip = 0`, `limit = 100`, provided the matching set fits the limit). -/
theorem C5_default_listing (db : List Task) (uid : String)
    (h : (db.filter (involved uid)).length ≤ 100) :
    (∀ t, t ∈ get_tasks db uid none none false false 0 100 ↔
      t ∈ db ∧ involved uid t = true) ∧
    List.Sorted createdDesc (get_tasks db uid none none false false 0 100) := by
  have hfilter : db.filter (taskMatches uid none none false false)
      = db.filter (involved uid) :=
    List.filter_congr (fun t _ => taskMatches_no_filters uid t)
  have hres : get_tasks db uid none none false false 0 100 =
      List.insertionSort createdDesc (db.filter (involved uid)) := by
    unfold get_tasks
    rw [hfilter, List.drop_zero, List.take_of_length_le]
    rw [(List.perm_insertionSort createdDesc (db.filter (involved uid))).length_eq]
    exact h
  constructor
  · intro t
    rw [hres, List.mem_insertionSort, List.mem_filter]
  · rw [hres]
    exact List.sorted_insertionSort createdDesc (db.filter (involved uid))

/-- C5 witness: on a one-task store owned by the caller, the default
listing contains the task and is sorted. -/
theorem C5_default_listing_witness :
    sampleTaskC5 ∈ get_tasks [sampleTaskC5] "u1" none none false false 0 100 ∧
    List.Sorted createdDesc (get_tasks [sampleTaskC5] "u1" none none false false 0 100) :=
  ⟨((C5_default_listing [sampleTaskC5] "u1" (by decide)).1 sampleTaskC5).mpr (by decide),
   (C5_default_listing [sampleTaskC5] "u1" (by decide)).2⟩

/-- A task neither created by nor assigned to `u1`, used for C6. -/
def leakedTask : Task :=
  { id := "cccccccccccccccccccccccc"
    title := some "secret"
    description := none
    status := some TaskStatus.todo
    priority := some TaskPriority.medium
    due_date := none
    created_by := "u2"
    assigned_to := some []
    tags := some []
    created_at := 0
    updated_at := 0
    completed_at := none }

/-- C6: a list request supplying only a status filter carries no
creator/assignee restriction, so a caller who is neither creator nor
assignee of a task — and receives 403 on direct GET of it — still
receives it in the listing. -/
theorem C6_status_filter_unscoped :
    get_tasks [leakedTask] "u1" (some TaskStatus.todo) none false false 0 100
      = [leakedTask] ∧
    ¬ canView leakedTask "u1" ∧
    get_task [leakedTask] "cccccccccccccccccccccccc" "u1" =
      Except.error ApiError.forbidden :=
  ⟨by decide, by decide, rfl⟩

/-- C7: a PUT leaves every field absent from the request body at its
prior value (an absent `status` also leaves `completed_at` alone), and
neither PUT nor PATCH ever changes `created_by` or `created_at`. -/
theorem C7_partial_update_frame (t : Task) (body : TaskUpdate) (s : TaskStatus)
    (now : Nat) :
    (update_task t body now).created_by = t.created_by ∧
    (update_task t body now).created_at = t.created_at ∧
    (update_task_status t s now).created_by = t.created_by ∧
    (update_task_status t s now).created_at = t.created_at ∧
    (body.title = none → (update_task t body now).title = t.title) ∧
    (body.description = none →
      (update_task t body now).description = t.description) ∧
    (body.status = none → (update_task t body now).status = t.status ∧
      (update_task t body now).completed_at = t.completed_at) ∧
    (body.priority = none → (update_task t body now).priority = t.priority) ∧
    (body.due_date = none → (update_task t body now).due_date = t.due_date) ∧
    (body.assigned_to = none →
      (update_task t body now).assigned_to = t.assigned_to) ∧
    (body.tags = none → (update_task t body now).tags = t.tags) := by
  by_cases he : body.isEmptyDump <;>
    refine ⟨?_, ?_, ?_, ?_, ?_, ?_, ?_, ?_, ?_, ?_, ?_⟩ <;>
      intros <;> simp_all [update_task, update_task_status, putCompletedAt]

/-- C7 witness: an all-unset PUT body and a PATCH on the C5 sample
task, with every frame conclusion instantiated. -/
theorem C7_partial_update_frame_witness :
    (update_task sampleTaskC5 {} 5).created_by = "u1" ∧
    (update_task sampleTaskC5 {} 5).title = some "mine" ∧
    (update_task sampleTaskC5 {} 5).status = some TaskStatus.todo ∧
    (update_task sampleTaskC5 {} 5).completed_at = none ∧
    (update_task_status sampleTaskC5 TaskStatus.todo 5).created_by = "u1" :=
  ⟨(C7_partial_update_frame sampleTaskC5 {} TaskStatus.todo 5).1,
   (C7_partial_update_frame sampleTaskC5 {} TaskStatus.todo 5).2.2.2.2.1 rfl,
   ((C7_partial_update_frame sampleTaskC5 {} TaskStatus.todo 5).2.2.2.2.2.2.1 rfl).1,
   ((C7_partial_update_frame sampleTaskC5 {} TaskStatus.todo 5).2.2.2.2.2.2.1 rfl).2,
   (C7_partial_update_frame sampleTaskC5 {} TaskStatus.todo 5).2.2.1⟩

/-- Sample registered user for the C8 and C9 witnesses: inactive, with
the hash of password `pw`. -/
def aliceUser : UserRec :=
  { id := "u1"
    username := "alice"
    email := "alice@x"
    hashed_password := get_password_hash "pw"
    full_name := none
    is_active := false }

/-- C8: registration fails whenever the requested username or email is
already taken (no record is inserted in either case), and the username
lookup runs first, so a request colliding on both reports the username
conflict. -/
theorem C8_register_conflict (users : List UserRec) (data : UserCreate) (newId : String)
    (h : (∃ u ∈ users, u.username = data.username) ∨
         (∃ u ∈ users, u.email = data.email)) :
    ((∃ u ∈ users, u.username = data.username) →
      register_user users data newId = Except.error ApiError.usernameTaken) ∧
    ((¬ ∃ u ∈ users, u.username = data.username) →
      register_user users data newId = Except.error ApiError.emailTaken) ∧
    (∀ rest, register_user users data newId ≠ Except.ok rest) := by
  have husome : (∃ u ∈ users, u.username = data.username) →
      ∃ u, findByUsername users data.username = some u := by
    intro hex
    have : (users.find? (fun u => u.username == data.username)).isSome := by
      rw [List.find?_isSome]
      obtain ⟨u, hu, he⟩ := hex
      exact ⟨u, hu, by simpa using he⟩
    exact Option.isSome_iff_exists.mp this
  have hesome : (∃ u ∈ users, u.email = data.email) →
      ∃ u, findByEmail users data.email = some u := by
    intro hex
    have : (users.find? (fun u => u.email == data.email)).isSome := by
      rw [List.find?_isSome]
      obtain ⟨u, hu, he⟩ := hex
      exact ⟨u, hu, by simpa using he⟩
    exact Option.isSome_iff_exists.mp this
  have hmain :
      ((∃ u ∈ users, u.username = data.username) →
        register_user users data newId = Except.error ApiError.usernameTaken) ∧
      ((¬ ∃ u ∈ users, u.username = data.username) →
        register_user users data newId = Except.error ApiError.emailTaken) := by
    constructor
    · intro hex
      obtain ⟨u, hu⟩ := husome hex
      simp [register_user, hu]
    · intro hnu
      have hnone : findByUsername users data.username = none := by
        unfold findByUsername
        rw [List.find?_eq_none]
        intro u hu
        simp only [beq_iff_eq]
        exact fun he => hnu ⟨u, hu, he⟩
      obtain ⟨u, hu⟩ := hesome (h.resolve_left hnu)
      simp [register_user, hnone, hu]
  refine ⟨hmain.1, hmain.2, ?_⟩
  intro rest
  by_cases hu : ∃ u ∈ users, u.username = data.username
  · simp [hmain.1 hu]
  · simp [hmain.2 hu]

/-- C8 witness: registering a user colliding with `alice` on both
username and email reports the username conflict. -/
theorem C8_register_conflict_witness :
    register_user [aliceUser]
      { username := "alice", email := "alice@x", password := "q" } "u9" =
      Except.error ApiError.usernameTaken :=
  (C8_register_conflict [aliceUser]
    { username := "alice", email := "alice@x", password := "q" } "u9"
    (Or.inl (by decide))).1 (by decide)

/-- C9: login with an unknown username returns 401; login with a known
username but failing password verification returns 401 (even on an
inactive account, since the password is checked first); login with a
verified password on an inactive account returns the 400 inactive
error. -/
theorem C9_login_errors (users : List UserRec) (username password : String) :
    (findByUsername users username = none →
      login_user users username password = Except.error ApiError.unauthorized) ∧
    (∀ u, findByUsername users username = some u →
      (verify_password password u.hashed_password = false →
        login_user users username password = Except.error ApiError.unauthorized) ∧
      (verify_password password u.hashed_password = true → u.is_active = false →
        login_user users username password = Except.error ApiError.inactiveUser)) := by
  constructor
  · intro h
    simp [login_user, h]
  · intro u hu
    constructor
    · intro hv
      simp [login_user, hu, hv]
    · intro hv ha
      simp [login_user, hu, hv, ha]

/-- C9 witness: against a store holding only the inactive `alice`
account, an unknown username and a wrong password both yield 401 while
the correct password yields the 400 inactive error. -/
theorem C9_login_errors_witness :
    login_user [aliceUser] "bob" "pw" = Except.error ApiError.unauthorized ∧
    login_user [aliceUser] "alice" "bad" = Except.error ApiError.unauthorized ∧
    login_user [aliceUser] "alice" "pw" = Except.error ApiError.inactiveUser :=
  ⟨(C9_login_errors [aliceUser] "bob" "pw").1 rfl,
   ((C9_login_errors [aliceUser] "alice" "bad").2 aliceUser rfl).1 (by decide),
   ((C9_login_errors [aliceUser] "alice" "pw").2 aliceUser rfl).2 (by decide) rfl⟩

/-- A completed task with its completion timestamp, for the C10
witness. -/
def completedTask : Task :=
  { id := "eeeeeeeeeeeeeeeeeeeeeeee"
    title := some "done"
    description := none
    status := some TaskStatus.completed
    priority := some TaskPriority.medium
    due_date := none
    created_by := "u1"
    assigned_to := some []
    tags := some []
    created_at := 1
    updated_at := 2
    completed_at := some 3 }

/-- C10: a PUT body whose `status` field is explicitly null `$set`s the
persisted status to null while `completed_at` keeps its prior value;
applied to a completed task (whose `completed_at` is non-null) this
yields a record whose status is not `completed` yet whose
`completed_at` is non-null. -/
theorem C10_explicit_null_status (t : Task) (body : TaskUpdate) (now : Nat)
    (h : body.status = some none) :
    (update_task t body now).status = none ∧
    (update_task t body now).completed_at = t.completed_at ∧
    (t.status = some TaskStatus.completed → t.completed_at ≠ none →
      ((update_task t body now).status ≠ some TaskStatus.completed ∧
       (update_task t body now).completed_at ≠ none)) := by
  have he : body.isEmptyDump = false := by
    simp [TaskUpdate.isEmptyDump, h]
  refine ⟨?_, ?_, ?_⟩
  · simp [update_task, he, h]
  · simp [update_task, he, h, putCompletedAt]
  · intro _ hc
    constructor
    · simp [update_task, he, h]
    · simpa [update_task, he, h, putCompletedAt] using hc

/-- C10 witness: the explicitly-null-status PUT on the concrete
completed task leaves `completed_at = some 3` with a null status. -/
theorem C10_explicit_null_status_witness :
    (update_task completedTask { status := some none } 7).status = none ∧
    (update_task completedTask { status := some none } 7).completed_at = some 3 :=
  ⟨(C10_explicit_null_status completedTask { status := some none } 7 rfl).1,
   (C10_explicit_null_status completedTask { status := some none } 7 rfl).2.1⟩

end TaskApi
